import Mathlib

/-!
Verification of the photo rotation cache of `server.js` (unsplash-slideshow).

The server keeps a mutable rotation state (current photos, overflow queue,
last-fetch timestamp, history log) and refreshes the current set on a rolling
55-minute window, draining the overflow queue before issuing an external
batched fetch.  We embed the state and the operations
(`shouldRefreshPhotos`, `addToHistory`, `ensureCurrentPhotos`) shallowly:
wall-clock time is an explicit `now : Nat` (milliseconds), the external
fetch client an explicit function `Nat → Except String (List Photo)`, and
the async function body a pure state transformer that additionally reports
whether the fetch client was invoked.
-/

namespace UnsplashSlideshow

/-- A photo record as consumed by the server (`photo.id`, `photo.user?.name`,
`photo.description`, `photo.alt_description`, `photo.links?.html`).
Fields that may be `undefined`/`null` in the JSON are `Option String`;
JS treats the empty string as falsy, which `jsOrStr` below accounts for. -/
structure Photo where
  id : String
  userName : Option String
  description : Option String
  altDescription : Option String
  linksHtml : Option String
deriving Repr, DecidableEq

/-- A history entry as built by `addToHistory`; the ISO timestamp string is
modelled by the numeric instant `timestamp`. -/
structure HistoryItem where
  id : String
  name : String
  description : String
  link : String
  timestamp : Nat
deriving Repr, DecidableEq

/-- The server's mutable state: `currentPhotos`, `photoQueue`,
`lastFetchTimestamp` (null before the first fetch), `photoHistory`. -/
structure ServerState where
  currentPhotos : List Photo
  photoQueue : List Photo
  lastFetchTimestamp : Option Nat
  photoHistory : List HistoryItem
deriving Repr, DecidableEq

/-- The initial state at process start: all containers empty,
`lastFetchTimestamp = null`. -/
def initialState : ServerState :=
  { currentPhotos := [], photoQueue := [], lastFetchTimestamp := none,
    photoHistory := [] }

def PHOTOS_PER_HOUR : Nat := 6
def PHOTOS_PER_BATCH : Nat := 10
def MAX_HISTORY_SIZE : Nat := 1440
def PHOTO_EXPIRATION_MINUTES : Nat := 55

/-- JS `a || b` on a possibly-absent string: `undefined`, `null` and the
empty string are falsy, so they fall through to `b`. -/
def jsOrStr (a : Option String) (b : String) : String :=
  match a with
  | none => b
  | some s => if s = "" then b else s

/-- `shouldRefreshPhotos`: true on the first fetch
(`lastFetchTimestamp === null`) or once at least 55 minutes have elapsed.
The JS computes `(now - last) / 60000 >= 55` on numbers; over integer
milliseconds this is exactly `55 * 60000 ≤ now - last` (and a clock that
went backwards gives a negative difference, hence `false`, matching
truncated `Nat` subtraction). -/
def shouldRefreshPhotos (now : Nat) (lastFetchTimestamp : Option Nat) : Bool :=
  match lastFetchTimestamp with
  | none => true
  | some last => decide (PHOTO_EXPIRATION_MINUTES * 60 * 1000 ≤ now - last)

/-- The history item built by `addToHistory` from a photo at instant `now`:
`name` falls back to `"Unknown"`, `description` to the alt text and then
`''`, `link` to a URL constructed from the id. -/
def mkHistoryItem (now : Nat) (photo : Photo) : HistoryItem :=
  { id := photo.id
    name := jsOrStr photo.userName "Unknown"
    description := jsOrStr photo.description (jsOrStr photo.altDescription "")
    link := jsOrStr photo.linksHtml ("https://unsplash.com/photos/" ++ photo.id)
    timestamp := now }

/-- `addToHistory`, generalised over the capacity: push the new item, then
drop the oldest entry if the length now exceeds the capacity. -/
def addToHistoryGen (maxSize now : Nat) (photo : Photo)
    (photoHistory : List HistoryItem) : List HistoryItem :=
  let pushed := photoHistory ++ [mkHistoryItem now photo]
  if maxSize < pushed.length then pushed.drop 1 else pushed

/-- `addToHistory` with the server's capacity `MAX_HISTORY_SIZE = 1440`. -/
def addToHistory (now : Nat) (photo : Photo)
    (photoHistory : List HistoryItem) : List HistoryItem :=
  addToHistoryGen MAX_HISTORY_SIZE now photo photoHistory

/-- Result of one `ensureCurrentPhotos` call: the value returned (or the
propagated error), the state afterwards, and whether `fetchPhotosFromAPI`
was invoked. -/
structure EnsureResult where
  result : Except String (List Photo)
  state : ServerState
  fetchCalled : Bool
deriving Repr

/-- `ensureCurrentPhotos`, generalised over the configuration constants
(`needed = PHOTOS_PER_HOUR`, `batch = PHOTOS_PER_BATCH`,
`maxHist = MAX_HISTORY_SIZE`).  If the window has not expired it returns
`currentPhotos` unchanged.  Otherwise it drains up to `needed` photos from
the head of the queue (the `while … shift()` loop), and if still short it
calls the fetch client for `batch` photos: on error the error propagates
with the queue already drained and everything else untouched; on success
the first `needed - drained` fetched photos complete the selection and the
remainder is appended to the queue.  Every selected photo is recorded in
the history, `currentPhotos` and `lastFetchTimestamp` are updated. -/
def ensureCurrentPhotosGen (needed batch maxHist now : Nat)
    (fetchAPI : Nat → Except String (List Photo))
    (st : ServerState) : EnsureResult :=
  if shouldRefreshPhotos now st.lastFetchTimestamp then
    let photos := st.photoQueue.take needed
    let queueAfterDrain := st.photoQueue.drop needed
    if photos.length < needed then
      match fetchAPI batch with
      | .error e =>
        { result := .error e
          state := { st with photoQueue := queueAfterDrain }
          fetchCalled := true }
      | .ok fetched =>
        let takeCount := needed - photos.length
        let selected := photos ++ fetched.take takeCount
        let finalQueue := queueAfterDrain ++ fetched.drop takeCount
        { result := .ok selected
          state :=
            { currentPhotos := selected
              photoQueue := finalQueue
              lastFetchTimestamp := some now
              photoHistory :=
                selected.foldl (fun h p => addToHistoryGen maxHist now p h)
                  st.photoHistory }
          fetchCalled := true }
    else
      { result := .ok photos
        state :=
          { currentPhotos := photos
            photoQueue := queueAfterDrain
            lastFetchTimestamp := some now
            photoHistory :=
              photos.foldl (fun h p => addToHistoryGen maxHist now p h)
                st.photoHistory }
        fetchCalled := false }
  else
    { result := .ok st.currentPhotos, state := st, fetchCalled := false }

/-- `ensureCurrentPhotos` with the server's configuration
(6 per window, batch 10, history capacity 1440). -/
def ensureCurrentPhotos (now : Nat)
    (fetchAPI : Nat → Except String (List Photo))
    (st : ServerState) : EnsureResult :=
  ensureCurrentPhotosGen PHOTOS_PER_HOUR PHOTOS_PER_BATCH MAX_HISTORY_SIZE
    now fetchAPI st

/-- A bare photo record with only an id, every optional field absent;
used as concrete test data. -/
def bareP (s : String) : Photo :=
  { id := s, userName := none, description := none, altDescription := none,
    linksHtml := none }

/-- The ten-photo batch `[P1..P10]` of the spec's overflow scenario. -/
def batchP : List Photo := (List.range 10).map (fun i => bareP ("P" ++ toString (i + 1)))

/-- A state whose window is fresh: one cached photo, window started at 0. -/
def stFresh : ServerState :=
  { currentPhotos := [bareP "A"], photoQueue := [],
    lastFetchTimestamp := some 0, photoHistory := [] }

/-- A state with an expired window and a full queue of six photos. -/
def stQueueSix : ServerState :=
  { currentPhotos := [], photoQueue :=
      (List.range 6).map (fun i => bareP ("Q" ++ toString (i + 1))),
    lastFetchTimestamp := none, photoHistory := [] }

/-- A state with an expired window and a single queued photo `X`. -/
def stQueueOne : ServerState :=
  { currentPhotos := [], photoQueue := [bareP "X"],
    lastFetchTimestamp := none, photoHistory := [] }

/-- The state of the spec's overflow scenario: queue `[X, Y]`, expired. -/
def stQueueXY : ServerState :=
  { currentPhotos := [], photoQueue := [bareP "X", bareP "Y"],
    lastFetchTimestamp := none, photoHistory := [] }

/-- A photo with a user name, an alt text but no description, and a
canonical link; exercises each fallback branch of `addToHistory`. -/
def pRich : Photo :=
  { id := "abc123", userName := some "Ann Lee", description := none,
    altDescription := some "a green hill", linksHtml := some "https://u.example/x" }

/-- A history log filled to capacity with copies of one entry. -/
def fullHistory : List HistoryItem :=
  List.replicate MAX_HISTORY_SIZE (mkHistoryItem 0 (bareP "Z"))

/-! ## Interleaving model of the async `ensureCurrentPhotos`

The JS function is `async` and runs on a single-threaded event loop: each
call executes synchronously from its start to the `await fetchPhotosFromAPI`
(or to completion when no fetch is needed), suspends there, and resumes
when its fetch resolves.  `refreshStart` is the synchronous prefix — the
expiry check, the queue drain and the decision to fetch (counting each
issued fetch call) — returning the drained working list that the
continuation closes over when the call suspends.  `refreshFinish` is the
continuation after the `await`: it splits the fetched batch, appends the
surplus to the (possibly meanwhile-modified) queue, records the history
and installs the new current set and timestamp. -/

/-- Global state shared by concurrently executing calls, plus a counter of
external fetch calls issued. -/
structure AsyncState where
  server : ServerState
  fetchCalls : Nat
deriving Repr, DecidableEq

/-- Synchronous prefix of one `ensureCurrentPhotos` call: returns
`some photos` when the call suspends awaiting a fetch (with the queue
already drained and the fetch counted), `none` when it completes without
suspending. -/
def refreshStart (needed maxHist now : Nat) (g : AsyncState) :
    Option (List Photo) × AsyncState :=
  if shouldRefreshPhotos now g.server.lastFetchTimestamp then
    let photos := g.server.photoQueue.take needed
    let queueAfterDrain := g.server.photoQueue.drop needed
    if photos.length < needed then
      (some photos,
        { server := { g.server with photoQueue := queueAfterDrain },
          fetchCalls := g.fetchCalls + 1 })
    else
      (none,
        { server :=
            { currentPhotos := photos
              photoQueue := queueAfterDrain
              lastFetchTimestamp := some now
              photoHistory :=
                photos.foldl (fun h p => addToHistoryGen maxHist now p h)
                  g.server.photoHistory }
          fetchCalls := g.fetchCalls })
  else
    (none, g)

/-- Continuation of a suspended `ensureCurrentPhotos` call once its fetch
resolved with `fetched`: completes the selection, enqueues the surplus,
records the history, and installs the current set and timestamp. -/
def refreshFinish (needed maxHist now : Nat) (photos fetched : List Photo)
    (g : AsyncState) : AsyncState :=
  let takeCount := needed - photos.length
  let selected := photos ++ fetched.take takeCount
  { server :=
      { currentPhotos := selected
        photoQueue := g.server.photoQueue ++ fetched.drop takeCount
        lastFetchTimestamp := some now
        photoHistory :=
          selected.foldl (fun h p => addToHistoryGen maxHist now p h)
            g.server.photoHistory }
    fetchCalls := g.fetchCalls }

/-- A second ten-photo batch `[R1..R10]`, the batch the second of two
racing refreshes receives. -/
def batchR : List Photo := (List.range 10).map (fun i => bareP ("R" ++ toString (i + 1)))

/-- The state reached when two `ensureCurrentPhotos` calls arrive at the
same expired instant: both run their synchronous prefix before either
fetch resolves, then each continuation runs on its own batch. -/
def twoCallerRace : AsyncState :=
  let g0 : AsyncState := { server := initialState, fetchCalls := 0 }
  let s1 := refreshStart PHOTOS_PER_HOUR MAX_HISTORY_SIZE 0 g0
  let s2 := refreshStart PHOTOS_PER_HOUR MAX_HISTORY_SIZE 0 s1.2
  let g3 := refreshFinish PHOTOS_PER_HOUR MAX_HISTORY_SIZE 0
      (s1.1.getD []) batchP s2.2
  refreshFinish PHOTOS_PER_HOUR MAX_HISTORY_SIZE 0 (s2.1.getD []) batchR g3

/-! ## Branch lemmas for `ensureCurrentPhotosGen` -/

/-- When the window has not expired, the call is a pure read. -/
theorem ensureGen_stale (needed batch maxHist now : Nat)
    (f : Nat → Except String (List Photo)) (st : ServerState)
    (h : shouldRefreshPhotos now st.lastFetchTimestamp = false) :
    ensureCurrentPhotosGen needed batch maxHist now f st =
      { result := .ok st.currentPhotos, state := st, fetchCalled := false } := by
  simp [ensureCurrentPhotosGen, h]

/-- When the window has expired and the queue can cover the whole window,
the refresh completes from the queue without calling the fetch client. -/
theorem ensureGen_queueFull (needed batch maxHist now : Nat)
    (f : Nat → Except String (List Photo)) (st : ServerState)
    (h : shouldRefreshPhotos now st.lastFetchTimestamp = true)
    (hq : needed ≤ st.photoQueue.length) :
    ensureCurrentPhotosGen needed batch maxHist now f st =
      { result := .ok (st.photoQueue.take needed)
        state :=
          { currentPhotos := st.photoQueue.take needed
            photoQueue := st.photoQueue.drop needed
            lastFetchTimestamp := some now
            photoHistory :=
              (st.photoQueue.take needed).foldl
                (fun h p => addToHistoryGen maxHist now p h) st.photoHistory }
        fetchCalled := false } := by
  have hlen : (st.photoQueue.take needed).length = needed := by
    simp [List.length_take]; omega
  simp [ensureCurrentPhotosGen, h, hlen]

/-- When the window has expired, the queue is short, and the fetch client
fails, the error propagates; the queue keeps only what the drain left. -/
theorem ensureGen_fetchError (needed batch maxHist now : Nat)
    (f : Nat → Except String (List Photo)) (st : ServerState) (e : String)
    (h : shouldRefreshPhotos now st.lastFetchTimestamp = true)
    (hq : st.photoQueue.length < needed)
    (hf : f batch = .error e) :
    ensureCurrentPhotosGen needed batch maxHist now f st =
      { result := .error e
        state := { st with photoQueue := st.photoQueue.drop needed }
        fetchCalled := true } := by
  have hlen : (st.photoQueue.take needed).length < needed := by
    simp [List.length_take]; omega
  simp [ensureCurrentPhotosGen, h, hlen, hf, hq]

/-- When the window has expired, the queue is short, and the fetch client
succeeds, the selection is the drained queue followed by the first
fetched photos, the remainder of the batch joins the queue, and all
selected photos are recorded in the history. -/
theorem ensureGen_fetchOk (needed batch maxHist now : Nat)
    (f : Nat → Except String (List Photo)) (st : ServerState)
    (fetched : List Photo)
    (h : shouldRefreshPhotos now st.lastFetchTimestamp = true)
    (hq : st.photoQueue.length < needed)
    (hf : f batch = .ok fetched) :
    ensureCurrentPhotosGen needed batch maxHist now f st =
      { result := .ok (st.photoQueue ++ fetched.take (needed - st.photoQueue.length))
        state :=
          { currentPhotos :=
              st.photoQueue ++ fetched.take (needed - st.photoQueue.length)
            photoQueue := fetched.drop (needed - st.photoQueue.length)
            lastFetchTimestamp := some now
            photoHistory :=
              (st.photoQueue ++ fetched.take (needed - st.photoQueue.length)).foldl
                (fun h p => addToHistoryGen maxHist now p h) st.photoHistory }
        fetchCalled := true } := by
  have htake : st.photoQueue.take needed = st.photoQueue :=
    List.take_of_length_le (Nat.le_of_lt hq)
  have hdrop : st.photoQueue.drop needed = [] :=
    List.drop_eq_nil_of_le (Nat.le_of_lt hq)
  have hlen : (st.photoQueue.take needed).length < needed := by
    simp [List.length_take]; omega
  simp [ensureCurrentPhotosGen, h, hlen, hf, htake, hdrop, hq]

/-! ## History-log lemmas -/

/-- One `addToHistory` step keeps the log within capacity. -/
theorem addToHistoryGen_length_le (m now : Nat) (p : Photo)
    (h : List HistoryItem) (hle : h.length ≤ m) :
    (addToHistoryGen m now p h).length ≤ m := by
  simp only [addToHistoryGen]
  split
  · rename_i hc
    simp only [List.length_drop, List.length_append, List.length_singleton]
    omega
  · rename_i hc
    simp only [List.length_append, List.length_singleton] at hc ⊢
    omega

/-- Any sequence of `addToHistory` steps keeps the log within capacity. -/
theorem foldl_addToHistoryGen_length_le (m now : Nat) (ops : List Photo)
    (h0 : List HistoryItem) (hle : h0.length ≤ m) :
    (ops.foldl (fun h p => addToHistoryGen m now p h) h0).length ≤ m := by
  induction ops generalizing h0 with
  | nil => simpa using hle
  | cons p ps ih =>
    exact ih (addToHistoryGen m now p h0)
      (addToHistoryGen_length_le m now p h0 hle)

/-- Appending to a log at capacity evicts exactly the oldest entry. -/
theorem addToHistoryGen_evicts_oldest (m now : Nat) (p : Photo)
    (h : List HistoryItem) (hfull : h.length = m) (hm : 0 < m) :
    addToHistoryGen m now p h = h.tail ++ [mkHistoryItem now p] := by
  simp only [addToHistoryGen]
  have hc : m < (h ++ [mkHistoryItem now p]).length := by
    simp only [List.length_append, List.length_singleton]
    omega
  rw [if_pos hc]
  cases h with
  | nil => simp at hfull; omega
  | cons a t => simp

/-- The freshly derived entry is always the last entry of the updated
log; in particular the operation always succeeds in recording it. -/
theorem addToHistoryGen_getLast (m now : Nat) (p : Photo)
    (h : List HistoryItem) (hm : 0 < m) :
    (addToHistoryGen m now p h).getLast? = some (mkHistoryItem now p) := by
  simp only [addToHistoryGen]
  by_cases hc : m < (h ++ [mkHistoryItem now p]).length
  · rw [if_pos hc]
    cases h with
    | nil => simp at hc; omega
    | cons a t => simp
  · rw [if_neg hc]
    simp

/-! ## Claims -/

/-- Claim C1: when the window is expired, the overflow queue holds fewer
than `PHOTOS_PER_HOUR` photos, and the external fetch client fails,
`ensureCurrentPhotos` propagates the error to the caller and leaves
`currentPhotos` and `lastFetchTimestamp` equal to their values before the
call. -/
theorem C1_fetchError_preserves_current_and_window
    (now : Nat) (f : Nat → Except String (List Photo)) (st : ServerState)
    (e : String)
    (hexp : shouldRefreshPhotos now st.lastFetchTimestamp = true)
    (hq : st.photoQueue.length < PHOTOS_PER_HOUR)
    (hf : f PHOTOS_PER_BATCH = .error e) :
    (ensureCurrentPhotos now f st).result = .error e ∧
    (ensureCurrentPhotos now f st).state.currentPhotos = st.currentPhotos ∧
    (ensureCurrentPhotos now f st).state.lastFetchTimestamp
      = st.lastFetchTimestamp := by
  rw [ensureCurrentPhotos,
    ensureGen_fetchError PHOTOS_PER_HOUR PHOTOS_PER_BATCH MAX_HISTORY_SIZE
      now f st e hexp hq hf]
  exact ⟨rfl, rfl, rfl⟩

/-- Witness for C1 at the initial state with an always-failing fetch. -/
theorem C1_fetchError_preserves_current_and_window_witness :
    (ensureCurrentPhotos 0 (fun _ => .error "supply") initialState).result
      = .error "supply" ∧
    (ensureCurrentPhotos 0 (fun _ => .error "supply") initialState).state.currentPhotos
      = initialState.currentPhotos ∧
    (ensureCurrentPhotos 0 (fun _ => .error "supply") initialState).state.lastFetchTimestamp
      = initialState.lastFetchTimestamp :=
  C1_fetchError_preserves_current_and_window 0 (fun _ => .error "supply")
    initialState "supply" rfl (by decide) rfl

/-- Claim C2: between two `ensureCurrentPhotos` calls whose instants both
lie strictly inside the window started at `t`, both calls return the cached
`currentPhotos` unchanged and the second call leaves the entire state
(current set, queue, history, timestamp) exactly as it was. -/
theorem C2_idempotent_within_window
    (t now1 now2 : Nat) (f1 f2 : Nat → Except String (List Photo))
    (st : ServerState)
    (hset : st.lastFetchTimestamp = some t)
    (h1 : now1 - t < PHOTO_EXPIRATION_MINUTES * 60 * 1000)
    (h2 : now2 - t < PHOTO_EXPIRATION_MINUTES * 60 * 1000) :
    (ensureCurrentPhotos now1 f1 st).result = .ok st.currentPhotos ∧
    (ensureCurrentPhotos now2 f2 (ensureCurrentPhotos now1 f1 st).state).result
      = .ok st.currentPhotos ∧
    (ensureCurrentPhotos now2 f2 (ensureCurrentPhotos now1 f1 st).state).state
      = st := by
  have hs1 : shouldRefreshPhotos now1 st.lastFetchTimestamp = false := by
    simp [shouldRefreshPhotos, hset]
    omega
  have hs2 : shouldRefreshPhotos now2 st.lastFetchTimestamp = false := by
    simp [shouldRefreshPhotos, hset]
    omega
  rw [ensureCurrentPhotos, ensureGen_stale _ _ _ _ _ _ hs1]
  rw [ensureCurrentPhotos, ensureGen_stale _ _ _ _ _ _ hs2]
  exact ⟨rfl, rfl, rfl⟩

/-- Witness for C2: two reads one millisecond apart inside a fresh window. -/
theorem C2_idempotent_within_window_witness :
    (ensureCurrentPhotos 1 (fun _ => .error "x") stFresh).result
      = .ok stFresh.currentPhotos ∧
    (ensureCurrentPhotos 2 (fun _ => .error "x")
        (ensureCurrentPhotos 1 (fun _ => .error "x") stFresh).state).result
      = .ok stFresh.currentPhotos ∧
    (ensureCurrentPhotos 2 (fun _ => .error "x")
        (ensureCurrentPhotos 1 (fun _ => .error "x") stFresh).state).state
      = stFresh :=
  C2_idempotent_within_window 0 1 2 (fun _ => .error "x") (fun _ => .error "x")
    stFresh rfl (by decide) (by decide)

/-- Claim C5: when the window is expired and the overflow queue holds at
least `PHOTOS_PER_HOUR` photos, the refresh consumes the queue and makes
no call to the external fetch client. -/
theorem C5_full_queue_no_fetch
    (now : Nat) (f : Nat → Except String (List Photo)) (st : ServerState)
    (hexp : shouldRefreshPhotos now st.lastFetchTimestamp = true)
    (hq : PHOTOS_PER_HOUR ≤ st.photoQueue.length) :
    (ensureCurrentPhotos now f st).fetchCalled = false ∧
    (ensureCurrentPhotos now f st).result
      = .ok (st.photoQueue.take PHOTOS_PER_HOUR) ∧
    (ensureCurrentPhotos now f st).state.lastFetchTimestamp = some now := by
  rw [ensureCurrentPhotos,
    ensureGen_queueFull PHOTOS_PER_HOUR PHOTOS_PER_BATCH MAX_HISTORY_SIZE
      now f st hexp hq]
  exact ⟨rfl, rfl, rfl⟩

/-- Witness for C5 on a six-photo queue with a fetch client that would
fail if it were ever consulted. -/
theorem C5_full_queue_no_fetch_witness :
    (ensureCurrentPhotos 0 (fun _ => .error "never") stQueueSix).fetchCalled
      = false ∧
    (ensureCurrentPhotos 0 (fun _ => .error "never") stQueueSix).result
      = .ok (stQueueSix.photoQueue.take PHOTOS_PER_HOUR) ∧
    (ensureCurrentPhotos 0 (fun _ => .error "never") stQueueSix).state.lastFetchTimestamp
      = some 0 :=
  C5_full_queue_no_fetch 0 (fun _ => .error "never") stQueueSix rfl (by decide)

/-- Counterexample to claim C6: with an expired window, the queue holding
`[X]`, and a failing fetch, the error propagates but the state is NOT
left exactly as before the attempt — the drained photo `X` has vanished
from the overflow queue. -/
theorem C6_counterexample :
    (ensureCurrentPhotos 0 (fun _ => .error "boom") stQueueOne).result
      = .error "boom" ∧
    (ensureCurrentPhotos 0 (fun _ => .error "boom") stQueueOne).state
      ≠ stQueueOne :=
  ⟨rfl, by decide⟩

/-- Claim C6 as amended: when a refresh's fetch fails, the error
propagates and `currentPhotos`, `lastFetchTimestamp` and `photoHistory`
are unchanged, but the overflow queue has been drained: it retains only
what remains after removing its first `PHOTOS_PER_HOUR` photos (the
drained photos are discarded with the aborted working list). -/
theorem C6_amended_fetchError_drains_queue
    (now : Nat) (f : Nat → Except String (List Photo)) (st : ServerState)
    (e : String)
    (hexp : shouldRefreshPhotos now st.lastFetchTimestamp = true)
    (hq : st.photoQueue.length < PHOTOS_PER_HOUR)
    (hf : f PHOTOS_PER_BATCH = .error e) :
    (ensureCurrentPhotos now f st).result = .error e ∧
    (ensureCurrentPhotos now f st).state
      = { st with photoQueue := st.photoQueue.drop PHOTOS_PER_HOUR } ∧
    (ensureCurrentPhotos now f st).fetchCalled = true := by
  rw [ensureCurrentPhotos,
    ensureGen_fetchError PHOTOS_PER_HOUR PHOTOS_PER_BATCH MAX_HISTORY_SIZE
      now f st e hexp hq hf]
  exact ⟨rfl, rfl, rfl⟩

/-- Witness for the amended C6 on the one-photo queue. -/
theorem C6_amended_fetchError_drains_queue_witness :
    (ensureCurrentPhotos 0 (fun _ => .error "boom") stQueueOne).result
      = .error "boom" ∧
    (ensureCurrentPhotos 0 (fun _ => .error "boom") stQueueOne).state
      = { stQueueOne with photoQueue := stQueueOne.photoQueue.drop PHOTOS_PER_HOUR } ∧
    (ensureCurrentPhotos 0 (fun _ => .error "boom") stQueueOne).fetchCalled
      = true :=
  C6_amended_fetchError_drains_queue 0 (fun _ => .error "boom") stQueueOne
    "boom" rfl (by decide) rfl

/-- Claim C7: a refresh that drains the queue and then fetches selects the
queued photos first, in queue order, completes the set with the first
fetched photos in fetch order, and leaves exactly the fetched remainder as
the new overflow queue. -/
theorem C7_queue_first_then_fetched_remainder
    (needed batch maxHist now : Nat)
    (f : Nat → Except String (List Photo)) (st : ServerState)
    (fetched : List Photo)
    (hexp : shouldRefreshPhotos now st.lastFetchTimestamp = true)
    (hq : st.photoQueue.length < needed)
    (hf : f batch = .ok fetched) :
    (ensureCurrentPhotosGen needed batch maxHist now f st).state.currentPhotos
      = st.photoQueue ++ fetched.take (needed - st.photoQueue.length) ∧
    (ensureCurrentPhotosGen needed batch maxHist now f st).state.photoQueue
      = fetched.drop (needed - st.photoQueue.length) ∧
    (ensureCurrentPhotosGen needed batch maxHist now f st).result
      = .ok (st.photoQueue ++ fetched.take (needed - st.photoQueue.length)) := by
  rw [ensureGen_fetchOk needed batch maxHist now f st fetched hexp hq hf]
  exact ⟨rfl, rfl, rfl⟩

/-- Witness for C7, the spec's scenario: queue `[X, Y]`, a window of 3,
fetch batch `[P1..P10]`; the current set becomes `[X, Y, P1]` and the
queue becomes `[P2..P10]`. -/
theorem C7_queue_first_then_fetched_remainder_witness :
    (ensureCurrentPhotosGen 3 10 MAX_HISTORY_SIZE 0 (fun _ => .ok batchP)
        stQueueXY).state.currentPhotos
      = [bareP "X", bareP "Y", bareP "P1"] ∧
    (ensureCurrentPhotosGen 3 10 MAX_HISTORY_SIZE 0 (fun _ => .ok batchP)
        stQueueXY).state.photoQueue
      = (List.range 9).map (fun i => bareP ("P" ++ toString (i + 2))) ∧
    (ensureCurrentPhotosGen 3 10 MAX_HISTORY_SIZE 0 (fun _ => .ok batchP)
        stQueueXY).result
      = .ok [bareP "X", bareP "Y", bareP "P1"] := by
  have h := C7_queue_first_then_fetched_remainder 3 10 MAX_HISTORY_SIZE 0
    (fun _ => .ok batchP) stQueueXY batchP rfl (by decide) rfl
  refine ⟨?_, ?_, ?_⟩
  · rw [h.1]; decide
  · rw [h.2.1]; decide
  · rw [h.2.2]; exact congrArg Except.ok (by decide)

/-- Counterexample to claim C3: a refresh in which the fetch client
succeeds with an empty batch completes successfully, yet leaves
`currentPhotos` with length 0, not `PHOTOS_PER_HOUR`. -/
theorem C3_counterexample :
    (ensureCurrentPhotos 0 (fun _ => .ok []) initialState).result = .ok [] ∧
    (ensureCurrentPhotos 0 (fun _ => .ok [])
        initialState).state.currentPhotos.length ≠ PHOTOS_PER_HOUR :=
  ⟨rfl, by decide⟩

/-- Claim C3 as amended: after a successful refresh, provided the fetch
client — when it was consulted — returned at least `PHOTOS_PER_HOUR`
records (as a batch of `PHOTOS_PER_BATCH = 10` does), the new current set
has length exactly `PHOTOS_PER_HOUR` and is what the call returned. -/
theorem C3_amended_successful_refresh_is_full
    (now : Nat) (f : Nat → Except String (List Photo)) (st : ServerState)
    (sel : List Photo)
    (hexp : shouldRefreshPhotos now st.lastFetchTimestamp = true)
    (hbatch : ∀ l, f PHOTOS_PER_BATCH = .ok l → PHOTOS_PER_HOUR ≤ l.length)
    (hsel : (ensureCurrentPhotos now f st).result = .ok sel) :
    sel.length = PHOTOS_PER_HOUR ∧
    (ensureCurrentPhotos now f st).state.currentPhotos = sel := by
  by_cases hq : PHOTOS_PER_HOUR ≤ st.photoQueue.length
  · rw [ensureCurrentPhotos,
      ensureGen_queueFull PHOTOS_PER_HOUR PHOTOS_PER_BATCH MAX_HISTORY_SIZE
        now f st hexp hq] at hsel ⊢
    injection hsel with hsel
    subst hsel
    refine ⟨?_, rfl⟩
    simp [List.length_take]
    omega
  · have hq' : st.photoQueue.length < PHOTOS_PER_HOUR := Nat.lt_of_not_le hq
    cases hfe : f PHOTOS_PER_BATCH with
    | error e =>
      rw [ensureCurrentPhotos,
        ensureGen_fetchError PHOTOS_PER_HOUR PHOTOS_PER_BATCH MAX_HISTORY_SIZE
          now f st e hexp hq' hfe] at hsel
      exact absurd hsel (by simp)
    | ok fetched =>
      have hlen : PHOTOS_PER_HOUR ≤ fetched.length := hbatch fetched hfe
      rw [ensureCurrentPhotos,
        ensureGen_fetchOk PHOTOS_PER_HOUR PHOTOS_PER_BATCH MAX_HISTORY_SIZE
          now f st fetched hexp hq' hfe] at hsel ⊢
      injection hsel with hsel
      subst hsel
      refine ⟨?_, rfl⟩
      simp [List.length_take]
      omega

/-- Witness for the amended C3: a first refresh backed by the full
ten-photo batch yields a current set of exactly six photos. -/
theorem C3_amended_successful_refresh_is_full_witness :
    (batchP.take 6).length = PHOTOS_PER_HOUR ∧
    (ensureCurrentPhotos 0 (fun _ => .ok batchP)
        initialState).state.currentPhotos = batchP.take 6 :=
  C3_amended_successful_refresh_is_full 0 (fun _ => .ok batchP) initialState
    (batchP.take 6) rfl
    (fun l hl => by injection hl with h; rw [← h]; decide) rfl

/-- Claim C10: when the fetch succeeds but returns fewer records than are
still needed after draining the queue, the refresh completes without
error: the current set becomes the short selection (strictly shorter than
`PHOTOS_PER_HOUR`), nothing is enqueued, the window timestamp is updated,
and any later call inside the new window returns the same short set with
the state untouched. -/
theorem C10_short_fetch_still_completes
    (now now2 : Nat) (f f2 : Nat → Except String (List Photo))
    (st : ServerState) (fetched : List Photo)
    (hexp : shouldRefreshPhotos now st.lastFetchTimestamp = true)
    (hq : st.photoQueue.length < PHOTOS_PER_HOUR)
    (hf : f PHOTOS_PER_BATCH = .ok fetched)
    (hshort : fetched.length < PHOTOS_PER_HOUR - st.photoQueue.length)
    (hnow2 : now2 - now < PHOTO_EXPIRATION_MINUTES * 60 * 1000) :
    (ensureCurrentPhotos now f st).result = .ok (st.photoQueue ++ fetched) ∧
    (ensureCurrentPhotos now f st).state.currentPhotos
      = st.photoQueue ++ fetched ∧
    (st.photoQueue ++ fetched).length < PHOTOS_PER_HOUR ∧
    (ensureCurrentPhotos now f st).state.photoQueue = [] ∧
    (ensureCurrentPhotos now f st).state.lastFetchTimestamp = some now ∧
    (ensureCurrentPhotos now2 f2 (ensureCurrentPhotos now f st).state).result
      = .ok (st.photoQueue ++ fetched) ∧
    (ensureCurrentPhotos now2 f2 (ensureCurrentPhotos now f st).state).state
      = (ensureCurrentPhotos now f st).state := by
  have htake : fetched.take (PHOTOS_PER_HOUR - st.photoQueue.length) = fetched :=
    List.take_of_length_le (Nat.le_of_lt hshort)
  have hdrop : fetched.drop (PHOTOS_PER_HOUR - st.photoQueue.length) = [] :=
    List.drop_eq_nil_of_le (Nat.le_of_lt hshort)
  rw [ensureCurrentPhotos,
    ensureGen_fetchOk PHOTOS_PER_HOUR PHOTOS_PER_BATCH MAX_HISTORY_SIZE
      now f st fetched hexp hq hf, htake, hdrop]
  have hlen : (st.photoQueue ++ fetched).length < PHOTOS_PER_HOUR := by
    simp only [List.length_append]
    omega
  have hs2 : shouldRefreshPhotos now2 (some now) = false := by
    simp [shouldRefreshPhotos]
    omega
  rw [ensureCurrentPhotos, ensureGen_stale _ _ _ _ _ _ hs2]
  exact ⟨rfl, rfl, hlen, rfl, rfl, rfl, rfl⟩

/-- Witness for C10: queue `[X]`, fetch succeeds with only two photos;
the window is served with the three-photo set `[X, P1, P2]`. -/
theorem C10_short_fetch_still_completes_witness :
    (ensureCurrentPhotos 0 (fun _ => .ok [bareP "P1", bareP "P2"])
        stQueueOne).result
      = .ok (stQueueOne.photoQueue ++ [bareP "P1", bareP "P2"]) ∧
    (ensureCurrentPhotos 0 (fun _ => .ok [bareP "P1", bareP "P2"])
        stQueueOne).state.currentPhotos
      = stQueueOne.photoQueue ++ [bareP "P1", bareP "P2"] ∧
    (stQueueOne.photoQueue ++ [bareP "P1", bareP "P2"]).length
      < PHOTOS_PER_HOUR ∧
    (ensureCurrentPhotos 0 (fun _ => .ok [bareP "P1", bareP "P2"])
        stQueueOne).state.photoQueue = [] ∧
    (ensureCurrentPhotos 0 (fun _ => .ok [bareP "P1", bareP "P2"])
        stQueueOne).state.lastFetchTimestamp = some 0 ∧
    (ensureCurrentPhotos 5 (fun _ => .error "later")
        (ensureCurrentPhotos 0 (fun _ => .ok [bareP "P1", bareP "P2"])
          stQueueOne).state).result
      = .ok (stQueueOne.photoQueue ++ [bareP "P1", bareP "P2"]) ∧
    (ensureCurrentPhotos 5 (fun _ => .error "later")
        (ensureCurrentPhotos 0 (fun _ => .ok [bareP "P1", bareP "P2"])
          stQueueOne).state).state
      = (ensureCurrentPhotos 0 (fun _ => .ok [bareP "P1", bareP "P2"])
          stQueueOne).state :=
  C10_short_fetch_still_completes 0 5 (fun _ => .ok [bareP "P1", bareP "P2"])
    (fun _ => .error "later") stQueueOne [bareP "P1", bareP "P2"] rfl
    (by decide) rfl (by decide) (by decide)

/-- Claim C4: any sequence of history appends starting from the empty log
stays within `MAX_HISTORY_SIZE`; appending to a log at capacity evicts
exactly the oldest entry; and in the `MAX_HISTORY = 3` scenario, appends
of `A`, `B`, `C` yield the log `[A, B, C]` and a fourth append of `D`
yields `[B, C, D]`. -/
theorem C4_history_capacity_fifo_eviction
    (now now2 now3 : Nat) (ops : List Photo) (hist : List HistoryItem)
    (p : Photo) (hfull : hist.length = MAX_HISTORY_SIZE) :
    (ops.foldl (fun h q => addToHistory now q h) []).length
      ≤ MAX_HISTORY_SIZE ∧
    addToHistory now2 p hist = hist.tail ++ [mkHistoryItem now2 p] ∧
    ([bareP "A", bareP "B", bareP "C"].foldl
        (fun h q => addToHistoryGen 3 now3 q h) [])
      = [mkHistoryItem now3 (bareP "A"), mkHistoryItem now3 (bareP "B"),
         mkHistoryItem now3 (bareP "C")] ∧
    addToHistoryGen 3 now3 (bareP "D")
        ([bareP "A", bareP "B", bareP "C"].foldl
          (fun h q => addToHistoryGen 3 now3 q h) [])
      = [mkHistoryItem now3 (bareP "B"), mkHistoryItem now3 (bareP "C"),
         mkHistoryItem now3 (bareP "D")] := by
  refine ⟨foldl_addToHistoryGen_length_le MAX_HISTORY_SIZE now ops []
      (by simp),
    addToHistoryGen_evicts_oldest MAX_HISTORY_SIZE now2 p hist hfull
      (by decide), ?_, ?_⟩
  · rfl
  · rfl

/-- Witness for C4 at a single append, a log at capacity, and the
`A, B, C, D` scenario with instant 0. -/
theorem C4_history_capacity_fifo_eviction_witness :
    (([bareP "A"].foldl (fun h q => addToHistory 0 q h) []).length
      ≤ MAX_HISTORY_SIZE) ∧
    addToHistory 0 (bareP "D") fullHistory
      = fullHistory.tail ++ [mkHistoryItem 0 (bareP "D")] ∧
    ([bareP "A", bareP "B", bareP "C"].foldl
        (fun h q => addToHistoryGen 3 0 q h) [])
      = [mkHistoryItem 0 (bareP "A"), mkHistoryItem 0 (bareP "B"),
         mkHistoryItem 0 (bareP "C")] ∧
    addToHistoryGen 3 0 (bareP "D")
        ([bareP "A", bareP "B", bareP "C"].foldl
          (fun h q => addToHistoryGen 3 0 q h) [])
      = [mkHistoryItem 0 (bareP "B"), mkHistoryItem 0 (bareP "C"),
         mkHistoryItem 0 (bareP "D")] :=
  C4_history_capacity_fifo_eviction 0 0 0 [bareP "A"] fullHistory
    (bareP "D") (by simp [fullHistory])

/-- Claim C8: deriving a history entry from any photo record is total and
applies the documented fallbacks — the display name defaults to
`"Unknown"` when the user name is absent, the description falls back to
the alt text and then the empty string, and the link falls back to a URL
constructed from the id; the derived entry is always appended
(hypotheses state that present fields are non-empty, since JS `||`
treats a present-but-empty string the same as an absent one). -/
theorem C8_history_entry_fallbacks
    (now : Nat) (p : Photo) (hist : List HistoryItem)
    (hu : ∀ s, p.userName = some s → s ≠ "")
    (hd : ∀ s, p.description = some s → s ≠ "")
    (ha : ∀ s, p.altDescription = some s → s ≠ "")
    (hl : ∀ s, p.linksHtml = some s → s ≠ "") :
    (mkHistoryItem now p).id = p.id ∧
    (mkHistoryItem now p).name = p.userName.getD "Unknown" ∧
    (mkHistoryItem now p).description
      = (p.description.or p.altDescription).getD "" ∧
    (mkHistoryItem now p).link
      = p.linksHtml.getD ("https://unsplash.com/photos/" ++ p.id) ∧
    (mkHistoryItem now p).timestamp = now ∧
    (addToHistory now p hist).getLast? = some (mkHistoryItem now p) := by
  refine ⟨rfl, ?_, ?_, ?_, rfl,
    addToHistoryGen_getLast MAX_HISTORY_SIZE now p hist (by decide)⟩
  · cases hpu : p.userName with
    | none => simp [mkHistoryItem, jsOrStr, hpu]
    | some s => simp [mkHistoryItem, jsOrStr, hpu, hu s hpu]
  · cases hpd : p.description with
    | none =>
      cases hpa : p.altDescription with
      | none => simp [mkHistoryItem, jsOrStr, hpd, hpa]
      | some s => simp [mkHistoryItem, jsOrStr, hpd, hpa, ha s hpa]
    | some s => simp [mkHistoryItem, jsOrStr, hpd, hd s hpd]
  · cases hpl : p.linksHtml with
    | none => simp [mkHistoryItem, jsOrStr, hpl]
    | some s => simp [mkHistoryItem, jsOrStr, hpl, hl s hpl]

/-- Witness for C8 on a concrete photo with a user name, an alt text but
no description, and a canonical link. -/
theorem C8_history_entry_fallbacks_witness :
    (mkHistoryItem 7 pRich).id = pRich.id ∧
    (mkHistoryItem 7 pRich).name = pRich.userName.getD "Unknown" ∧
    (mkHistoryItem 7 pRich).description
      = (pRich.description.or pRich.altDescription).getD "" ∧
    (mkHistoryItem 7 pRich).link
      = pRich.linksHtml.getD ("https://unsplash.com/photos/" ++ pRich.id) ∧
    (mkHistoryItem 7 pRich).timestamp = 7 ∧
    (addToHistory 7 pRich []).getLast? = some (mkHistoryItem 7 pRich) :=
  C8_history_entry_fallbacks 7 pRich []
    (fun s hs => by injection hs with h; subst h; decide)
    (fun s hs => Option.noConfusion hs)
    (fun s hs => by injection hs with h; subst h; decide)
    (fun s hs => by injection hs with h; subst h; decide)

/-- Claim C9 fails on the code: two `ensureCurrentPhotos` calls arriving
at the same expired instant each run the synchronous prefix before either
fetch resolves, so each issues its own external fetch and each appends
`PHOTOS_PER_HOUR` history entries — two fetch calls and twelve entries
for one logical window, where the claim demands one and six.  A single
call over the same window appends exactly `PHOTOS_PER_HOUR` entries. -/
theorem C9_concurrent_expiry_double_fetch :
    twoCallerRace.fetchCalls = 2 ∧
    twoCallerRace.server.photoHistory.length = 2 * PHOTOS_PER_HOUR ∧
    (ensureCurrentPhotos 0 (fun _ => .ok batchP)
        initialState).state.photoHistory.length = PHOTOS_PER_HOUR := by
  refine ⟨rfl, ?_, ?_⟩ <;> decide

end UnsplashSlideshow
